import Mathlib

/-!
Verification of the decision-framework core of the repository:
`SCRIPTS/decision_logic.py` (evaluate_backtest, evaluate_optimization,
evaluate_validation, route_decision) and the overlapping evaluators in
`SCRIPTS/decision_cli.py`.

Python floats are modelled as rationals (the code only compares against
decimal threshold constants), trade counts as integers, decision strings as
the closed enumeration `Decision`, and the dictionary lookups
`d.get(key, default)` as `Option` fields read through `Option.getD`.
The human-readable `reason` strings and the `details` dictionaries returned
alongside each decision are abstracted to a tag identifying which return
statement fired; they carry no control-flow information of their own.
-/

namespace DecisionFramework

/-- The closed set of decision strings produced by the evaluators
(spec section 3: Decision). -/
inductive Decision
  | ABANDON_HYPOTHESIS
  | PROCEED_TO_OPTIMIZATION
  | PROCEED_TO_VALIDATION
  | ESCALATE_TO_HUMAN
  | USE_BASELINE_PARAMS
  | PROCEED_WITH_ROBUST_PARAMS
  | DEPLOY_STRATEGY
  | PROCEED_WITH_CAUTION
  deriving DecidableEq, Repr

/-- Backtest performance metrics as consumed by `evaluate_backtest`
(decision_logic.py lines 80-84).  The Python code reads each field with
`performance.get(key, 0)`, so a record here is the already-defaulted view. -/
structure Performance where
  sharpe_ratio : ℚ
  max_drawdown : ℚ
  total_trades : ℤ
  win_rate : ℚ
  total_return : ℚ
  deriving DecidableEq, Repr

/-- A threshold tier holding `sharpe_ratio` / `max_drawdown` / `min_trades`
keys, each possibly missing (minimum_viable and optimization_worthy tiers,
and the CLI's tiers, which carry no win_rate key). -/
structure ViableTier where
  sharpe_ratio : Option ℚ
  max_drawdown : Option ℚ
  min_trades : Option ℤ
  deriving DecidableEq, Repr

/-- The empty tier dictionary `{}` produced by `thresholds.get(tier, {})`. -/
def ViableTier.emptyTier : ViableTier := ⟨none, none, none⟩

/-- The production_ready tier, which additionally holds a `win_rate` key
(decision_logic.py lines 177-180). -/
structure ProdTier where
  sharpe_ratio : Option ℚ
  max_drawdown : Option ℚ
  min_trades : Option ℤ
  win_rate : Option ℚ
  deriving DecidableEq, Repr

/-- The empty production tier dictionary. -/
def ProdTier.emptyTier : ProdTier := ⟨none, none, none, none⟩

/-- The overfitting_signals tier (decision_logic.py lines 106, 117, 128). -/
structure OverfitSignals where
  too_perfect_sharpe : Option ℚ
  too_few_trades : Option ℤ
  win_rate_too_high : Option ℚ
  deriving DecidableEq, Repr

/-- The empty overfitting_signals dictionary. -/
def OverfitSignals.emptyTier : OverfitSignals := ⟨none, none, none⟩

/-- The nested threshold configuration passed to `evaluate_backtest`
(decision_logic.py lines 87-90); every sub-dictionary may be missing. -/
structure Thresholds where
  minimum_viable : Option ViableTier
  optimization_worthy : Option ViableTier
  production_ready : Option ProdTier
  overfitting_signals : Option OverfitSignals
  deriving DecidableEq, Repr

/-- The empty thresholds dictionary `{}`. -/
def Thresholds.emptyConfig : Thresholds := ⟨none, none, none, none⟩

/-- The fully populated default configuration documented in the module
docstring and the self-test of decision_logic.py (lines 44-67, 556-578). -/
def default_thresholds : Thresholds :=
  { minimum_viable := some ⟨some 0.5, some 0.40, some 30⟩
    optimization_worthy := some ⟨some 0.7, some 0.35, some 50⟩
    production_ready := some ⟨some 1.0, some 0.30, some 100, some 0.40⟩
    overfitting_signals := some ⟨some 3.0, some 20, some 0.75⟩ }

/-- Tag identifying which of the ten return statements of
`evaluate_backtest` produced the result (abstracting the reason string and
the details dictionary of the corresponding return site). -/
inductive BacktestReason
  | tooPerfectSharpe
  | tooFewTrades
  | winRateTooHigh
  | sharpeBelowMinimum
  | drawdownTooHigh
  | insufficientTrades
  | productionReady
  | optimizationWorthy
  | marginal
  | noCriteriaMatched
  deriving DecidableEq, Repr

/-- Shallow embedding of `evaluate_backtest`
(src/SCRIPTS/decision_logic.py lines 26-227).  The threshold lookups
(lines 87-90, 106, 117, 128, 143-145, 177-180, 197-199) are hoisted to the
top since they are pure reads; the if-chain then mirrors the source's
return statements in order. -/
def evaluate_backtest (performance : Performance) (thresholds : Thresholds) :
    Decision × BacktestReason :=
  let sharpe := performance.sharpe_ratio
  let max_dd := performance.max_drawdown
  let total_trades := performance.total_trades
  let win_rate := performance.win_rate
  let min_viable := thresholds.minimum_viable.getD ViableTier.emptyTier
  let opt_worthy := thresholds.optimization_worthy.getD ViableTier.emptyTier
  let prod_ready := thresholds.production_ready.getD ProdTier.emptyTier
  let overfit_signals := thresholds.overfitting_signals.getD OverfitSignals.emptyTier
  let too_perfect_sharpe := overfit_signals.too_perfect_sharpe.getD 3.0
  let too_few_trades := overfit_signals.too_few_trades.getD 20
  let win_rate_too_high := overfit_signals.win_rate_too_high.getD 0.75
  let min_sharpe := min_viable.sharpe_ratio.getD 0.5
  let max_dd_threshold := min_viable.max_drawdown.getD 0.40
  let min_trades := min_viable.min_trades.getD 30
  let prod_sharpe := prod_ready.sharpe_ratio.getD 1.0
  let prod_dd := prod_ready.max_drawdown.getD 0.30
  let prod_trades := prod_ready.min_trades.getD 100
  let prod_win_rate := prod_ready.win_rate.getD 0.40
  let opt_sharpe := opt_worthy.sharpe_ratio.getD 0.7
  let opt_dd := opt_worthy.max_drawdown.getD 0.35
  let opt_trades := opt_worthy.min_trades.getD 50
  if sharpe > too_perfect_sharpe then
    (Decision.ESCALATE_TO_HUMAN, BacktestReason.tooPerfectSharpe)
  else if 0 < total_trades ∧ total_trades < too_few_trades then
    (Decision.ESCALATE_TO_HUMAN, BacktestReason.tooFewTrades)
  else if win_rate > win_rate_too_high then
    (Decision.ESCALATE_TO_HUMAN, BacktestReason.winRateTooHigh)
  else if sharpe < min_sharpe then
    (Decision.ABANDON_HYPOTHESIS, BacktestReason.sharpeBelowMinimum)
  else if max_dd > max_dd_threshold then
    (Decision.ABANDON_HYPOTHESIS, BacktestReason.drawdownTooHigh)
  else if total_trades < min_trades then
    (Decision.ABANDON_HYPOTHESIS, BacktestReason.insufficientTrades)
  else if sharpe ≥ prod_sharpe ∧ max_dd ≤ prod_dd ∧
      total_trades ≥ prod_trades ∧ win_rate ≥ prod_win_rate then
    (Decision.PROCEED_TO_VALIDATION, BacktestReason.productionReady)
  else if sharpe ≥ opt_sharpe ∧ max_dd ≤ opt_dd ∧ total_trades ≥ opt_trades then
    (Decision.PROCEED_TO_OPTIMIZATION, BacktestReason.optimizationWorthy)
  else if sharpe ≥ min_sharpe ∧ total_trades ≥ min_trades then
    (Decision.PROCEED_TO_OPTIMIZATION, BacktestReason.marginal)
  else
    (Decision.ABANDON_HYPOTHESIS, BacktestReason.noCriteriaMatched)

/-- Effective too_perfect_sharpe threshold after the two-level defaulted
lookup of decision_logic.py lines 90 and 106. -/
def overfit_too_perfect_sharpe (t : Thresholds) : ℚ :=
  (t.overfitting_signals.getD OverfitSignals.emptyTier).too_perfect_sharpe.getD 3.0

/-- Effective too_few_trades threshold (lines 90 and 117). -/
def overfit_too_few_trades (t : Thresholds) : ℤ :=
  (t.overfitting_signals.getD OverfitSignals.emptyTier).too_few_trades.getD 20

/-- Effective win_rate_too_high threshold (lines 90 and 128). -/
def overfit_win_rate_too_high (t : Thresholds) : ℚ :=
  (t.overfitting_signals.getD OverfitSignals.emptyTier).win_rate_too_high.getD 0.75

/-- Replace every missing key of a threshold configuration by the default
value that the corresponding `get` call in `evaluate_backtest` would have
used (decision_logic.py lines 106, 117, 128, 143-145, 177-180, 197-199). -/
def fill_defaults (t : Thresholds) : Thresholds :=
  let min_viable := t.minimum_viable.getD ViableTier.emptyTier
  let opt_worthy := t.optimization_worthy.getD ViableTier.emptyTier
  let prod_ready := t.production_ready.getD ProdTier.emptyTier
  let overfit_signals := t.overfitting_signals.getD OverfitSignals.emptyTier
  { minimum_viable := some
      ⟨some (min_viable.sharpe_ratio.getD 0.5),
       some (min_viable.max_drawdown.getD 0.40),
       some (min_viable.min_trades.getD 30)⟩
    optimization_worthy := some
      ⟨some (opt_worthy.sharpe_ratio.getD 0.7),
       some (opt_worthy.max_drawdown.getD 0.35),
       some (opt_worthy.min_trades.getD 50)⟩
    production_ready := some
      ⟨some (prod_ready.sharpe_ratio.getD 1.0),
       some (prod_ready.max_drawdown.getD 0.30),
       some (prod_ready.min_trades.getD 100),
       some (prod_ready.win_rate.getD 0.40)⟩
    overfitting_signals := some
      ⟨some (overfit_signals.too_perfect_sharpe.getD 3.0),
       some (overfit_signals.too_few_trades.getD 20),
       some (overfit_signals.win_rate_too_high.getD 0.75)⟩ }

/-- Tag identifying which return statement of `evaluate_optimization`
(decision_logic.py) produced the result. -/
inductive OptimizationReason
  | degraded
  | minimalImprovement
  | excessiveImprovement
  | reasonableImprovement
  deriving DecidableEq, Repr

/-- Shallow embedding of `evaluate_optimization`
(src/SCRIPTS/decision_logic.py lines 230-287).  The `thresholds` argument is
accepted but never read, exactly as in the source. -/
def evaluate_optimization (baseline_sharpe optimized_sharpe improvement_pct : ℚ)
    (thresholds : Thresholds) : Decision × OptimizationReason :=
  if improvement_pct < 0 then
    (Decision.USE_BASELINE_PARAMS, OptimizationReason.degraded)
  else if improvement_pct < 0.05 then
    (Decision.USE_BASELINE_PARAMS, OptimizationReason.minimalImprovement)
  else if improvement_pct > 0.30 then
    (Decision.ESCALATE_TO_HUMAN, OptimizationReason.excessiveImprovement)
  else
    (Decision.PROCEED_TO_VALIDATION, OptimizationReason.reasonableImprovement)

/-- Tag identifying which return statement of `evaluate_validation`
(decision_logic.py) produced the result. -/
inductive ValidationReason
  | severeDegradation
  | lowRobustness
  | robust
  | moderateRisk
  | borderline
  deriving DecidableEq, Repr

/-- Shallow embedding of `evaluate_validation`
(src/SCRIPTS/decision_logic.py lines 290-359).  The sharpe arguments and the
`thresholds` argument only flow into the details dictionary and the reason
strings; the decision depends on `degradation_pct` and `robustness_score`. -/
def evaluate_validation (train_sharpe test_sharpe degradation_pct robustness_score : ℚ)
    (thresholds : Thresholds) : Decision × ValidationReason :=
  if degradation_pct > 0.40 then
    (Decision.ABANDON_HYPOTHESIS, ValidationReason.severeDegradation)
  else if robustness_score < 0.5 then
    (Decision.ABANDON_HYPOTHESIS, ValidationReason.lowRobustness)
  else if degradation_pct < 0.15 ∧ robustness_score > 0.75 then
    (Decision.DEPLOY_STRATEGY, ValidationReason.robust)
  else if degradation_pct < 0.30 ∧ robustness_score > 0.60 then
    (Decision.PROCEED_WITH_CAUTION, ValidationReason.moderateRisk)
  else
    (Decision.ESCALATE_TO_HUMAN, ValidationReason.borderline)

/-- The ordered validation rule chain exactly as the specification words it
(spec section 4.3), kept separate from the source embedding so the two can
be compared. -/
def validation_rules_spec (degradation_pct robustness_score : ℚ) : Decision :=
  if degradation_pct > 0.40 then Decision.ABANDON_HYPOTHESIS
  else if robustness_score < 0.5 then Decision.ABANDON_HYPOTHESIS
  else if degradation_pct < 0.15 ∧ robustness_score > 0.75 then Decision.DEPLOY_STRATEGY
  else if degradation_pct < 0.30 ∧ robustness_score > 0.60 then Decision.PROCEED_WITH_CAUTION
  else Decision.ESCALATE_TO_HUMAN

/-- Routing record returned by `route_decision`
(decision_logic.py lines 405-413).  The free-text `rationale` field carries
no control-flow information and is omitted from the embedding. -/
structure Routing where
  next_phase : String
  next_action : String
  increment_iteration : Bool
  terminal : Bool
  deriving DecidableEq, Repr

/-- The final fallback of `route_decision` for an unknown phase or decision
(decision_logic.py lines 542-548). -/
def unknown_routing (current_phase : String) : Routing :=
  ⟨current_phase, "manual", false, false⟩

/-- Shallow embedding of `route_decision`
(src/SCRIPTS/decision_logic.py lines 362-548).  Phase and decision are kept
as strings as in the source; when an inner decision chain for a known phase
matches nothing, control falls through to the final unknown-routing return,
exactly as in the Python control flow. -/
def route_decision (current_phase decision : String)
    (iteration max_iterations : ℤ) : Routing :=
  if iteration ≥ max_iterations then
    ⟨"abandoned", "/qc-init", true, true⟩
  else if current_phase = "backtest" then
    if decision = "ABANDON_HYPOTHESIS" then
      ⟨"abandoned", "/qc-init", true, true⟩
    else if decision = "PROCEED_TO_OPTIMIZATION" then
      ⟨"optimization", "/qc-optimize", false, false⟩
    else if decision = "PROCEED_TO_VALIDATION" then
      ⟨"validation", "/qc-validate", false, false⟩
    else if decision = "ESCALATE_TO_HUMAN" then
      ⟨"backtest", "manual", false, false⟩
    else unknown_routing current_phase
  else if current_phase = "optimization" then
    if decision = "USE_BASELINE_PARAMS" then
      ⟨"validation", "/qc-validate --use-baseline", false, false⟩
    else if decision = "PROCEED_TO_VALIDATION" then
      ⟨"validation", "/qc-validate --use-optimized", false, false⟩
    else if decision = "ESCALATE_TO_HUMAN" then
      ⟨"optimization", "manual", false, false⟩
    else unknown_routing current_phase
  else if current_phase = "validation" then
    if decision = "ABANDON_HYPOTHESIS" then
      ⟨"abandoned", "/qc-init", true, true⟩
    else if decision = "DEPLOY_STRATEGY" then
      ⟨"deployed", "manual", false, true⟩
    else if decision = "PROCEED_WITH_CAUTION" then
      ⟨"deployed", "manual", false, true⟩
    else if decision = "ESCALATE_TO_HUMAN" then
      ⟨"validation", "manual", false, false⟩
    else unknown_routing current_phase
  else unknown_routing current_phase

/-- Input record of the CLI's evaluate-backtest command
(decision_cli.py lines 77-89): the loaded backtest-results JSON.  The
`status` key drives the technical-failure branch; the metric keys are the
already-defaulted views of `backtest_results.get(...)`. -/
structure BacktestResults where
  status : Option String
  sharpe_ratio : ℚ
  max_drawdown : ℚ
  total_trades : ℤ
  win_rate : ℚ
  deriving DecidableEq, Repr

/-- The `performance_criteria` sub-dictionary of the CLI's iteration-state
thresholds (decision_cli.py lines 73, 114-116). -/
structure PerfCriteria where
  minimum_viable : Option ViableTier
  optimization_worthy : Option ViableTier
  production_ready : Option ViableTier
  deriving DecidableEq, Repr

/-- The empty performance_criteria dictionary. -/
def PerfCriteria.emptyTier : PerfCriteria := ⟨none, none, none⟩

/-- The CLI's threshold configuration, read from the iteration-state file
(decision_cli.py lines 72-74). -/
structure CliThresholds where
  performance_criteria : Option PerfCriteria
  overfitting_signals : Option OverfitSignals
  deriving DecidableEq, Repr

/-- The empty CLI threshold configuration (missing `thresholds` key in the
iteration-state file). -/
def CliThresholds.emptyConfig : CliThresholds := ⟨none, none⟩

/-- Shallow embedding of the decision computed by the CLI's
evaluate-backtest command (src/SCRIPTS/decision_cli.py lines 53-178):
status check, its own overfitting gate (note: too-few-trades returns
ABANDON_HYPOTHESIS here, with default 10 and no lower bound), then the
tier categorization with the CLI's own defaults, where a merely
minimum-viable record proceeds to validation. -/
def cli_evaluate_backtest (backtest_results : BacktestResults)
    (thresholds : CliThresholds) : Decision :=
  let perf_criteria := thresholds.performance_criteria.getD PerfCriteria.emptyTier
  let overfit_signals := thresholds.overfitting_signals.getD OverfitSignals.emptyTier
  if backtest_results.status = some "error" then
    Decision.ESCALATE_TO_HUMAN
  else
  let sharpe := backtest_results.sharpe_ratio
  let drawdown := |backtest_results.max_drawdown|
  let num_trades := backtest_results.total_trades
  let win_rate := backtest_results.win_rate
  if sharpe > overfit_signals.too_perfect_sharpe.getD 3.0 then
    Decision.ESCALATE_TO_HUMAN
  else if num_trades < overfit_signals.too_few_trades.getD 10 then
    Decision.ABANDON_HYPOTHESIS
  else if win_rate > overfit_signals.win_rate_too_high.getD 0.80 then
    Decision.ESCALATE_TO_HUMAN
  else
  let min_viable := perf_criteria.minimum_viable.getD ViableTier.emptyTier
  let opt_worthy := perf_criteria.optimization_worthy.getD ViableTier.emptyTier
  let prod_ready := perf_criteria.production_ready.getD ViableTier.emptyTier
  if sharpe ≥ prod_ready.sharpe_ratio.getD 1.0 ∧
      drawdown ≤ prod_ready.max_drawdown.getD 0.20 ∧
      num_trades ≥ prod_ready.min_trades.getD 50 then
    Decision.PROCEED_TO_VALIDATION
  else if sharpe ≥ opt_worthy.sharpe_ratio.getD 0.7 ∧
      drawdown ≤ opt_worthy.max_drawdown.getD 0.30 ∧
      num_trades ≥ opt_worthy.min_trades.getD 30 then
    Decision.PROCEED_TO_OPTIMIZATION
  else if sharpe ≥ min_viable.sharpe_ratio.getD 0.5 ∧
      drawdown ≤ min_viable.max_drawdown.getD 0.35 ∧
      num_trades ≥ min_viable.min_trades.getD 20 then
    Decision.PROCEED_TO_VALIDATION
  else
    Decision.ABANDON_HYPOTHESIS

/-- The improvement computation of the CLI's evaluate-optimization command
(src/SCRIPTS/decision_cli.py lines 209-213): guarded division, 0 when the
baseline Sharpe is not positive. -/
def cli_improvement (baseline_sharpe best_sharpe : ℚ) : ℚ :=
  if baseline_sharpe > 0 then (best_sharpe - baseline_sharpe) / baseline_sharpe
  else 0

/-- Shallow embedding of the decision computed by the CLI's
evaluate-optimization command (src/SCRIPTS/decision_cli.py lines 185-259):
the parameter-sensitivity override is checked first, then the improvement
rules. -/
def cli_evaluate_optimization (baseline_sharpe best_sharpe parameter_sensitivity : ℚ) :
    Decision :=
  let improvement := cli_improvement baseline_sharpe best_sharpe
  if parameter_sensitivity > 0.5 then
    Decision.PROCEED_WITH_ROBUST_PARAMS
  else if improvement < 0.05 then
    Decision.USE_BASELINE_PARAMS
  else if improvement > 0.30 then
    Decision.ESCALATE_TO_HUMAN
  else
    Decision.PROCEED_TO_VALIDATION

/-- Rank of the three decision values that the sharpe-monotonicity property
orders (ABANDON below PROCEED_TO_OPTIMIZATION below PROCEED_TO_VALIDATION);
decisions outside that chain are given the top rank. -/
def decision_rank : Decision → ℕ
  | Decision.ABANDON_HYPOTHESIS => 0
  | Decision.PROCEED_TO_OPTIMIZATION => 1
  | Decision.PROCEED_TO_VALIDATION => 2
  | _ => 3

/-- C1: for every performance record and every threshold configuration, if
any overfitting signal holds (sharpe_ratio above too_perfect_sharpe, or a
positive trade count below too_few_trades, or win_rate above
win_rate_too_high), `evaluate_backtest` returns ESCALATE_TO_HUMAN; the
overfitting gate dominates every later tier, so even a record meeting every
production_ready condition escalates. -/
theorem evaluate_backtest_overfitting_escalates (p : Performance) (t : Thresholds)
    (h : p.sharpe_ratio > overfit_too_perfect_sharpe t ∨
      (0 < p.total_trades ∧ p.total_trades < overfit_too_few_trades t) ∨
      p.win_rate > overfit_win_rate_too_high t) :
    (evaluate_backtest p t).1 = Decision.ESCALATE_TO_HUMAN := by
  unfold overfit_too_perfect_sharpe overfit_too_few_trades overfit_win_rate_too_high at h
  simp only [evaluate_backtest]
  split_ifs with h1 h2 h3 h4 h5 h6 h7 h8 h9
  · rfl
  · rfl
  · rfl
  all_goals rcases h with ha | hb | hc
  all_goals first
    | exact absurd ha h1
    | exact absurd hb h2
    | exact absurd hc h3

/-- C1 witness: the record sharpe=4.0, drawdown=0.2, trades=50,
win_rate=0.5 triggers the too-perfect-sharpe signal under default
thresholds and escalates. -/
theorem evaluate_backtest_overfitting_escalates_witness :
    (evaluate_backtest ⟨4.0, 0.2, 50, 0.5, 0⟩ default_thresholds).1 =
      Decision.ESCALATE_TO_HUMAN :=
  evaluate_backtest_overfitting_escalates ⟨4.0, 0.2, 50, 0.5, 0⟩ default_thresholds
    (Or.inl (by norm_num [overfit_too_perfect_sharpe, default_thresholds]))

/-- C2: no input reaches the step-6 terminal fallback of
`evaluate_backtest`: for every performance record and every threshold
configuration some earlier branch returns first, because passing the
minimum-viable gate already establishes the marginal condition of step 5. -/
theorem evaluate_backtest_fallback_unreachable (p : Performance) (t : Thresholds) :
    (evaluate_backtest p t).2 ≠ BacktestReason.noCriteriaMatched := by
  simp only [evaluate_backtest]
  split_ifs with h1 h2 h3 h4 h5 h6 h7 h8 h9
  all_goals first
    | exact absurd ⟨not_lt.mp h4, not_lt.mp h6⟩ h9
    | simp

/-- Unfolding of `evaluate_backtest` at the default configuration: every
threshold lookup resolves to its documented numeral. -/
theorem evaluate_backtest_default_eq (p : Performance) :
    evaluate_backtest p default_thresholds =
      (if p.sharpe_ratio > 3.0 then
        (Decision.ESCALATE_TO_HUMAN, BacktestReason.tooPerfectSharpe)
      else if 0 < p.total_trades ∧ p.total_trades < 20 then
        (Decision.ESCALATE_TO_HUMAN, BacktestReason.tooFewTrades)
      else if p.win_rate > 0.75 then
        (Decision.ESCALATE_TO_HUMAN, BacktestReason.winRateTooHigh)
      else if p.sharpe_ratio < 0.5 then
        (Decision.ABANDON_HYPOTHESIS, BacktestReason.sharpeBelowMinimum)
      else if p.max_drawdown > 0.40 then
        (Decision.ABANDON_HYPOTHESIS, BacktestReason.drawdownTooHigh)
      else if p.total_trades < 30 then
        (Decision.ABANDON_HYPOTHESIS, BacktestReason.insufficientTrades)
      else if p.sharpe_ratio ≥ 1.0 ∧ p.max_drawdown ≤ 0.30 ∧
          p.total_trades ≥ 100 ∧ p.win_rate ≥ 0.40 then
        (Decision.PROCEED_TO_VALIDATION, BacktestReason.productionReady)
      else if p.sharpe_ratio ≥ 0.7 ∧ p.max_drawdown ≤ 0.35 ∧ p.total_trades ≥ 50 then
        (Decision.PROCEED_TO_OPTIMIZATION, BacktestReason.optimizationWorthy)
      else if p.sharpe_ratio ≥ 0.5 ∧ p.total_trades ≥ 30 then
        (Decision.PROCEED_TO_OPTIMIZATION, BacktestReason.marginal)
      else
        (Decision.ABANDON_HYPOTHESIS, BacktestReason.noCriteriaMatched)) := rfl

/-- C3 counterexample: drawdown 0.2, 120 trades and win_rate 0.9 satisfy
every production_ready condition (win_rate 0.9 is at least the tier's
0.40), yet the win-rate overfitting gate pre-empts every tier check: the
decision is ESCALATE_TO_HUMAN at sharpe 0.3 (below minimum viable, where
the claim requires ABANDON_HYPOTHESIS) and at sharpe 2 (production range,
where the claim requires PROCEED_TO_VALIDATION) alike, so the decision
never moves through the claimed ABANDON - OPTIMIZATION - VALIDATION
progression at all. -/
theorem evaluate_backtest_sharpe_monotone_as_stated_fails :
    ((0.40:ℚ) ≤ 0.9 ∧ (0.2:ℚ) ≤ 0.30 ∧ (100:ℤ) ≤ 120) ∧
    (evaluate_backtest ⟨0.3, 0.2, 120, 0.9, 0⟩ default_thresholds).1 =
      Decision.ESCALATE_TO_HUMAN ∧
    (evaluate_backtest ⟨2, 0.2, 120, 0.9, 0⟩ default_thresholds).1 =
      Decision.ESCALATE_TO_HUMAN ∧
    Decision.ESCALATE_TO_HUMAN ≠ Decision.ABANDON_HYPOTHESIS ∧
    Decision.ESCALATE_TO_HUMAN ≠ Decision.PROCEED_TO_VALIDATION := by
  refine ⟨by norm_num, ?_, ?_, by simp, by simp⟩
  · rw [evaluate_backtest_default_eq]
    norm_num
  · rw [evaluate_backtest_default_eq]
    norm_num

set_option maxHeartbeats 1000000 in
/-- C3 (amended): under default thresholds, with drawdown, trades and
win_rate fixed at production_ready values and win_rate additionally within
the overfitting bound 0.75 (the proviso the counterexample forces — above
it the win-rate gate escalates for every sharpe), the decision as a
function of sharpe_ratio is ABANDON_HYPOTHESIS below 0.5,
PROCEED_TO_OPTIMIZATION from 0.5 up to below 1.0, PROCEED_TO_VALIDATION
from 1.0 up to the too-perfect bound 3.0, and hence moves monotonically
through that order, never stepping backward. -/
theorem evaluate_backtest_sharpe_monotone
    (max_dd : ℚ) (total_trades : ℤ) (win_rate total_return : ℚ)
    (hdd : max_dd ≤ 0.30) (htr : (100:ℤ) ≤ total_trades)
    (hwr_lo : 0.40 ≤ win_rate) (hwr_hi : win_rate ≤ 0.75) :
    (∀ s : ℚ, s < 0.5 →
      (evaluate_backtest ⟨s, max_dd, total_trades, win_rate, total_return⟩
        default_thresholds).1 = Decision.ABANDON_HYPOTHESIS) ∧
    (∀ s : ℚ, 0.5 ≤ s → s < 1.0 →
      (evaluate_backtest ⟨s, max_dd, total_trades, win_rate, total_return⟩
        default_thresholds).1 = Decision.PROCEED_TO_OPTIMIZATION) ∧
    (∀ s : ℚ, 1.0 ≤ s → s ≤ 3.0 →
      (evaluate_backtest ⟨s, max_dd, total_trades, win_rate, total_return⟩
        default_thresholds).1 = Decision.PROCEED_TO_VALIDATION) ∧
    (∀ s₁ s₂ : ℚ, s₁ ≤ s₂ → s₂ ≤ 3.0 →
      decision_rank (evaluate_backtest ⟨s₁, max_dd, total_trades, win_rate, total_return⟩
          default_thresholds).1 ≤
        decision_rank (evaluate_backtest ⟨s₂, max_dd, total_trades, win_rate, total_return⟩
          default_thresholds).1) := by
  have habandon : ∀ s : ℚ, s < 0.5 →
      (evaluate_backtest ⟨s, max_dd, total_trades, win_rate, total_return⟩
        default_thresholds).1 = Decision.ABANDON_HYPOTHESIS := by
    intro s hs
    rw [evaluate_backtest_default_eq]
    dsimp only
    split_ifs with h1 h2 h3
    · exact absurd h1 (not_lt.mpr (by linarith))
    · exact absurd h2.2 (by omega)
    · exact absurd h3 (not_lt.mpr hwr_hi)
    · rfl
  have hopt : ∀ s : ℚ, 0.5 ≤ s → s < 1.0 →
      (evaluate_backtest ⟨s, max_dd, total_trades, win_rate, total_return⟩
        default_thresholds).1 = Decision.PROCEED_TO_OPTIMIZATION := by
    intro s hs1 hs2
    rw [evaluate_backtest_default_eq]
    dsimp only
    split_ifs with h1 h2 h3 h4 h5 h6 h7 h8 h9
    · exact absurd h1 (not_lt.mpr (by linarith))
    · exact absurd h2.2 (by omega)
    · exact absurd h3 (not_lt.mpr hwr_hi)
    · exact absurd h4 (not_lt.mpr hs1)
    · exact absurd h5 (not_lt.mpr (by linarith))
    · exact absurd h6 (by omega)
    · exact absurd h7.1 (not_le.mpr hs2)
    · rfl
    · rfl
    · exact absurd ⟨hs1, by omega⟩ h9
  have hprod : ∀ s : ℚ, 1.0 ≤ s → s ≤ 3.0 →
      (evaluate_backtest ⟨s, max_dd, total_trades, win_rate, total_return⟩
        default_thresholds).1 = Decision.PROCEED_TO_VALIDATION := by
    intro s hs1 hs2
    rw [evaluate_backtest_default_eq]
    dsimp only
    split_ifs with h1 h2 h3 h4 h5 h6 h7 h8 h9
    · exact absurd h1 (not_lt.mpr hs2)
    · exact absurd h2.2 (by omega)
    · exact absurd h3 (not_lt.mpr hwr_hi)
    · exact absurd h4 (not_lt.mpr (by linarith))
    · exact absurd h5 (not_lt.mpr (by linarith))
    · exact absurd h6 (by omega)
    · rfl
    all_goals exact absurd ⟨hs1, hdd, htr, hwr_lo⟩ h7
  refine ⟨habandon, hopt, hprod, ?_⟩
  intro s₁ s₂ h12 h23
  rcases lt_or_le s₁ 0.5 with c1 | c1
  · rw [habandon s₁ c1]
    exact Nat.zero_le _
  · rcases lt_or_le s₁ 1.0 with c2 | c2
    · rw [hopt s₁ c1 c2]
      rcases lt_or_le s₂ 1.0 with d2 | d2
      · rw [hopt s₂ (le_trans c1 h12) d2]
      · rw [hprod s₂ d2 h23]
        norm_num [decision_rank]
    · rw [hprod s₁ c2 (le_trans h12 h23), hprod s₂ (le_trans c2 h12) h23]

/-- C3 witness: at drawdown 0.2, 120 trades, win_rate 0.5, a sharpe of 2
lands in the production-ready range and yields PROCEED_TO_VALIDATION. -/
theorem evaluate_backtest_sharpe_monotone_witness :
    (evaluate_backtest ⟨2, 0.2, 120, 0.5, 0⟩ default_thresholds).1 =
      Decision.PROCEED_TO_VALIDATION :=
  (evaluate_backtest_sharpe_monotone 0.2 120 0.5 0 (by norm_num) (by norm_num)
    (by norm_num) (by norm_num)).2.2.1 2 (by norm_num) (by norm_num)

/-- C4: `evaluate_validation` implements exactly the ordered rule chain of
the specification (severe degradation, then low robustness, then deploy,
then caution, else escalate), for every input; in particular degradation
0.12 with robustness 0.80 deploys, and degradation 0.45 abandons for every
robustness score. -/
theorem evaluate_validation_rule_chain :
    (∀ (train_sharpe test_sharpe degradation_pct robustness_score : ℚ)
        (t : Thresholds),
      (evaluate_validation train_sharpe test_sharpe degradation_pct
          robustness_score t).1 =
        validation_rules_spec degradation_pct robustness_score) ∧
    (∀ (train_sharpe test_sharpe : ℚ) (t : Thresholds),
      (evaluate_validation train_sharpe test_sharpe 0.12 0.80 t).1 =
        Decision.DEPLOY_STRATEGY) ∧
    (∀ (train_sharpe test_sharpe robustness_score : ℚ) (t : Thresholds),
      (evaluate_validation train_sharpe test_sharpe 0.45 robustness_score t).1 =
        Decision.ABANDON_HYPOTHESIS) := by
  refine ⟨?_, ?_, ?_⟩
  · intro train_sharpe test_sharpe d r t
    unfold evaluate_validation validation_rules_spec
    split_ifs <;> rfl
  · intro train_sharpe test_sharpe t
    norm_num [evaluate_validation]
  · intro train_sharpe test_sharpe r t
    norm_num [evaluate_validation]

/-- C5: whenever iteration has reached max_iterations, `route_decision`
returns the forced-abandonment routing (next_phase abandoned, terminal,
iteration incremented) for every phase and decision string, overriding any
decision-driven transition. -/
theorem route_decision_iteration_guard (current_phase decision : String)
    (iteration max_iterations : ℤ) (h : iteration ≥ max_iterations) :
    route_decision current_phase decision iteration max_iterations =
      ⟨"abandoned", "/qc-init", true, true⟩ := by
  unfold route_decision
  rw [if_pos h]

/-- C5 witness: routing PROCEED_TO_OPTIMIZATION out of backtest at
iteration 3 of 3 is forced to abandoned and terminal. -/
theorem route_decision_iteration_guard_witness :
    route_decision "backtest" "PROCEED_TO_OPTIMIZATION" 3 3 =
      ⟨"abandoned", "/qc-init", true, true⟩ :=
  route_decision_iteration_guard "backtest" "PROCEED_TO_OPTIMIZATION" 3 3 (le_refl 3)

/-- C6: in the CLI optimization evaluation, a parameter_sensitivity score
above 0.5 yields PROCEED_WITH_ROBUST_PARAMS for every baseline and
optimized Sharpe (hence for every improvement value) — the sensitivity
check precedes the improvement rules. -/
theorem cli_optimization_sensitivity_override
    (baseline_sharpe best_sharpe parameter_sensitivity : ℚ)
    (h : parameter_sensitivity > 0.5) :
    cli_evaluate_optimization baseline_sharpe best_sharpe parameter_sensitivity =
      Decision.PROCEED_WITH_ROBUST_PARAMS := by
  simp only [cli_evaluate_optimization]
  rw [if_pos h]

/-- C6 witness: sensitivity 0.6 with baseline 1 and optimized 2 (a 100%
improvement, which alone would escalate) still proceeds with robust
parameters. -/
theorem cli_optimization_sensitivity_override_witness :
    cli_evaluate_optimization 1 2 0.6 = Decision.PROCEED_WITH_ROBUST_PARAMS :=
  cli_optimization_sensitivity_override 1 2 0.6 (by norm_num)

/-- C7: `evaluate_backtest` is total over partial configuration: every
threshold configuration evaluates exactly as its default-filled completion;
the empty configuration evaluates as the fully documented default
configuration, which is precisely the default-filling of the empty one. -/
theorem evaluate_backtest_defaults_partial_config (p : Performance) (t : Thresholds) :
    evaluate_backtest p t = evaluate_backtest p (fill_defaults t) ∧
    evaluate_backtest p Thresholds.emptyConfig =
      evaluate_backtest p default_thresholds ∧
    fill_defaults Thresholds.emptyConfig = default_thresholds :=
  ⟨rfl, rfl, rfl⟩

/-- C8 counterexample: with drawdown 0.20 and 40 trades satisfying the
minimum_viable tier and sharpe 0.3 strictly below minimum_viable's 0.5, a
win_rate of 0.9 makes `evaluate_backtest` return ESCALATE_TO_HUMAN (the
overfitting gate fires first), not the ABANDON_HYPOTHESIS the claim
requires of every such record. -/
theorem evaluate_backtest_boundary_as_stated_fails :
    (evaluate_backtest ⟨0.3, 0.20, 40, 0.9, 0⟩ default_thresholds).1 =
      Decision.ESCALATE_TO_HUMAN ∧
    Decision.ESCALATE_TO_HUMAN ≠ Decision.ABANDON_HYPOTHESIS := by
  refine ⟨?_, by simp⟩
  rw [evaluate_backtest_default_eq]
  norm_num

set_option maxHeartbeats 1000000 in
/-- C8 (amended): under default thresholds, provided no overfitting signal
fires (win_rate at most win_rate_too_high; the minimum-viable trade bound
already rules out the too-few-trades signal), with drawdown and trades
satisfying the minimum_viable tier: sharpe exactly equal to
minimum_viable's 0.5 is not rejected (the low-Sharpe check's strict
less-than passes equality), every sharpe strictly below 0.5 returns
ABANDON_HYPOTHESIS, and the production_ready and optimization_worthy tiers
treat sharpe exactly equal to their own threshold as passing. -/
theorem evaluate_backtest_boundary
    (max_dd : ℚ) (total_trades : ℤ) (win_rate total_return : ℚ)
    (hdd : max_dd ≤ 0.40) (htr : (30:ℤ) ≤ total_trades)
    (hwr : win_rate ≤ 0.75) :
    ((evaluate_backtest ⟨0.5, max_dd, total_trades, win_rate, total_return⟩
        default_thresholds).1 ≠ Decision.ABANDON_HYPOTHESIS) ∧
    (∀ s : ℚ, s < 0.5 →
      (evaluate_backtest ⟨s, max_dd, total_trades, win_rate, total_return⟩
        default_thresholds).1 = Decision.ABANDON_HYPOTHESIS) ∧
    (max_dd ≤ 0.30 → (100:ℤ) ≤ total_trades → 0.40 ≤ win_rate →
      (evaluate_backtest ⟨1.0, max_dd, total_trades, win_rate, total_return⟩
        default_thresholds).1 = Decision.PROCEED_TO_VALIDATION) ∧
    (max_dd ≤ 0.35 → (50:ℤ) ≤ total_trades →
      (evaluate_backtest ⟨0.7, max_dd, total_trades, win_rate, total_return⟩
        default_thresholds).1 = Decision.PROCEED_TO_OPTIMIZATION) := by
  refine ⟨?_, ?_, ?_, ?_⟩
  · rw [evaluate_backtest_default_eq]
    dsimp only
    split_ifs with h1 h2 h3 h4 h5 h6 h7 h8 h9
    · simp
    · simp
    · simp
    · exact absurd h4 (by norm_num)
    · exact absurd h5 (not_lt.mpr hdd)
    · exact absurd h6 (by omega)
    · simp
    · simp
    · simp
    · exact absurd ⟨le_refl _, htr⟩ h9
  · intro s hs
    rw [evaluate_backtest_default_eq]
    dsimp only
    split_ifs with h1 h2 h3
    · exact absurd h1 (not_lt.mpr (by linarith))
    · exact absurd h2.2 (by omega)
    · exact absurd h3 (not_lt.mpr hwr)
    · rfl
  · intro hdd' htr' hwr'
    rw [evaluate_backtest_default_eq]
    dsimp only
    split_ifs with h1 h2 h3 h4 h5 h6 h7
    · exact absurd h1 (by norm_num)
    · exact absurd h2.2 (by omega)
    · exact absurd h3 (not_lt.mpr hwr)
    · exact absurd h4 (by norm_num)
    · exact absurd h5 (not_lt.mpr hdd)
    · exact absurd h6 (by omega)
    · rfl
    all_goals exact absurd ⟨le_refl _, hdd', htr', hwr'⟩ h7
  · intro hdd'' htr''
    rw [evaluate_backtest_default_eq]
    dsimp only
    split_ifs with h1 h2 h3 h4 h5 h6 h7 h8 h9
    · exact absurd h1 (by norm_num)
    · exact absurd h2.2 (by omega)
    · exact absurd h3 (not_lt.mpr hwr)
    · exact absurd h4 (by norm_num)
    · exact absurd h5 (not_lt.mpr hdd)
    · exact absurd h6 (by omega)
    · exact absurd h7.1 (by norm_num)
    · rfl
    all_goals exact absurd ⟨by norm_num, hdd'', htr''⟩ h8

/-- C8 witness: at drawdown 0.2, 120 trades, win_rate 0.5, sharpe exactly
1.0 (the production_ready threshold) passes and proceeds to validation. -/
theorem evaluate_backtest_boundary_witness :
    (evaluate_backtest ⟨1.0, 0.2, 120, 0.5, 0⟩ default_thresholds).1 =
      Decision.PROCEED_TO_VALIDATION :=
  (evaluate_backtest_boundary 0.2 120 0.5 0 (by norm_num) (by norm_num)
    (by norm_num)).2.2.1 (by norm_num) (by norm_num) (by norm_num)

/-- C9: a baseline Sharpe at or below zero makes the CLI improvement
computation return 0 (no division occurs), and, absent the
parameter-sensitivity override, both the CLI optimization decision and
`evaluate_optimization` applied to that improvement return
USE_BASELINE_PARAMS through the minimal-improvement branch. -/
theorem cli_optimization_nonpositive_baseline
    (baseline_sharpe best_sharpe parameter_sensitivity : ℚ)
    (hb : baseline_sharpe ≤ 0) (hs : parameter_sensitivity ≤ 0.5) :
    cli_improvement baseline_sharpe best_sharpe = 0 ∧
    cli_evaluate_optimization baseline_sharpe best_sharpe parameter_sensitivity =
      Decision.USE_BASELINE_PARAMS ∧
    evaluate_optimization baseline_sharpe best_sharpe
        (cli_improvement baseline_sharpe best_sharpe) default_thresholds =
      (Decision.USE_BASELINE_PARAMS, OptimizationReason.minimalImprovement) := by
  have himp : cli_improvement baseline_sharpe best_sharpe = 0 := by
    unfold cli_improvement
    rw [if_neg (not_lt.mpr hb)]
  refine ⟨himp, ?_, ?_⟩
  · simp only [cli_evaluate_optimization, himp]
    rw [if_neg (not_lt.mpr hs), if_pos (by norm_num)]
  · rw [himp]
    unfold evaluate_optimization
    rw [if_neg (lt_irrefl 0), if_pos (by norm_num)]

/-- C9 witness: baseline Sharpe 0 with optimized Sharpe 2 and no
sensitivity override yields improvement 0 and USE_BASELINE_PARAMS. -/
theorem cli_optimization_nonpositive_baseline_witness :
    cli_improvement 0 2 = 0 ∧
    cli_evaluate_optimization 0 2 0 = Decision.USE_BASELINE_PARAMS :=
  ⟨(cli_optimization_nonpositive_baseline 0 2 0 (le_refl 0) (by norm_num)).1,
   (cli_optimization_nonpositive_baseline 0 2 0 (le_refl 0) (by norm_num)).2.1⟩

/-- C10: the two backtest evaluators disagree: under default thresholds the
record (sharpe 1.8, drawdown 0.15, 12 trades, win_rate 0.67) escalates in
decision_logic but is abandoned by the CLI, and the record (sharpe 0.55,
drawdown 0.20, 40 trades, win_rate 0.50) goes to optimization in
decision_logic but straight to validation in the CLI. -/
theorem backtest_evaluators_disagree :
    ((evaluate_backtest ⟨1.8, 0.15, 12, 0.67, 0⟩ default_thresholds).1 =
        Decision.ESCALATE_TO_HUMAN ∧
      cli_evaluate_backtest ⟨none, 1.8, 0.15, 12, 0.67⟩ CliThresholds.emptyConfig =
        Decision.ABANDON_HYPOTHESIS ∧
      (evaluate_backtest ⟨1.8, 0.15, 12, 0.67, 0⟩ default_thresholds).1 ≠
        cli_evaluate_backtest ⟨none, 1.8, 0.15, 12, 0.67⟩ CliThresholds.emptyConfig) ∧
    ((evaluate_backtest ⟨0.55, 0.20, 40, 0.50, 0⟩ default_thresholds).1 =
        Decision.PROCEED_TO_OPTIMIZATION ∧
      cli_evaluate_backtest ⟨none, 0.55, 0.20, 40, 0.50⟩ CliThresholds.emptyConfig =
        Decision.PROCEED_TO_VALIDATION ∧
      (evaluate_backtest ⟨0.55, 0.20, 40, 0.50, 0⟩ default_thresholds).1 ≠
        cli_evaluate_backtest ⟨none, 0.55, 0.20, 40, 0.50⟩ CliThresholds.emptyConfig) := by
  have h1 : (evaluate_backtest ⟨1.8, 0.15, 12, 0.67, 0⟩ default_thresholds).1 =
      Decision.ESCALATE_TO_HUMAN := by
    rw [evaluate_backtest_default_eq]
    norm_num
  have h2 : cli_evaluate_backtest ⟨none, 1.8, 0.15, 12, 0.67⟩ CliThresholds.emptyConfig =
      Decision.ABANDON_HYPOTHESIS := by
    norm_num [cli_evaluate_backtest, CliThresholds.emptyConfig, PerfCriteria.emptyTier,
      OverfitSignals.emptyTier, ViableTier.emptyTier, abs]
    rintro ⟨⟩
  have h3 : (evaluate_backtest ⟨0.55, 0.20, 40, 0.50, 0⟩ default_thresholds).1 =
      Decision.PROCEED_TO_OPTIMIZATION := by
    rw [evaluate_backtest_default_eq]
    norm_num
  have h4 : cli_evaluate_backtest ⟨none, 0.55, 0.20, 40, 0.50⟩ CliThresholds.emptyConfig =
      Decision.PROCEED_TO_VALIDATION := by
    norm_num [cli_evaluate_backtest, CliThresholds.emptyConfig, PerfCriteria.emptyTier,
      OverfitSignals.emptyTier, ViableTier.emptyTier, abs]
    rintro ⟨⟩
  refine ⟨⟨h1, h2, ?_⟩, ⟨h3, h4, ?_⟩⟩
  · rw [h1, h2]
    simp
  · rw [h3, h4]
    simp

end DecisionFramework
